import Mathlib

/-!
InkSpace: the post detail view (`client/src/pages/PostDetail.js`).

A shallow embedding of the `PostDetail` component: its three pieces of React
state (`post`, `comments`, `userId`), the data-loading effect, the render
function with its ownership gate, the comment form (Yup schema, Formik draft,
`handleCommentSubmit`) and the navigation handlers.
-/

namespace InkSpace

/-! ## JavaScript values read from JSON payloads -/

/-- JavaScript values that `res.json()` can produce, plus `undefined` (the
result of reading a property that is not there).  Numbers are integer valued.
An object is its list of own properties, one entry per key. -/
inductive JsVal where
  | undefined : JsVal
  | null : JsVal
  | bool (b : Bool) : JsVal
  | num (n : Int) : JsVal
  | str (s : String) : JsVal
  | arr (items : List JsVal) : JsVal
  | obj (fields : List (String × JsVal)) : JsVal

namespace JsVal

/-- JavaScript truthiness (`if (v)`, `!v`, `v && …`, `v ? … : …`). -/
def truthy : JsVal → Bool
  | undefined => false
  | null => false
  | bool b => b
  | num n => n != 0
  | str s => s != ""
  | arr _ => true
  | obj _ => true

/-- Property read `v.key` for the data keys the component reads (`id`,
`author`, `username`, `content`, `created_at`, `categories`, `name`, `title`).
Reading a property of `null` or `undefined` throws a `TypeError` (`none`);
on primitives and arrays these keys are `undefined`. -/
def prop (v : JsVal) (key : String) : Option JsVal :=
  match v with
  | undefined => none
  | null => none
  | obj fields => some ((fields.lookup key).getD undefined)
  | _ => some undefined

/-- Strict equality `a === b` between two values that come from two different
`res.json()` results: primitives compare by type and value, and two objects or
arrays from different payloads are never the same reference. -/
def strictEq : JsVal → JsVal → Bool
  | undefined, undefined => true
  | null, null => true
  | bool a, bool b => a == b
  | num a, num b => a == b
  | str a, str b => a == b
  | _, _ => false

end JsVal

/-! ## Network results -/

/-- Outcome of one `fetch(...)`: the promise rejects (transport failure), or
it resolves to a response with a status and a body; `json = none` means that
`res.json()` rejects (the body cannot be read or parsed). -/
inductive Fetched where
  | rejected : Fetched
  | response (status : Nat) (json : Option JsVal) : Fetched

/-- The `res.ok` flag of a response: status in the range 200–299. -/
def Fetched.ok (status : Nat) : Bool := 200 ≤ status && status ≤ 299

/-! ## Component state -/

/-- State of one mounted `PostDetail` instance: the route parameter `id`, the
three `useState` cells, the Formik field `content` (the comment draft) and the
lines written with `console.error`. -/
structure ViewState where
  id : String
  post : JsVal
  comments : List JsVal
  userId : JsVal
  content : String
  console : List String

/-- The `content` field of the Formik `initialValues` (`{ content: '' }`). -/
def initialValues : String := ""

/-- First render of the component for route parameter `id`:
`useState(null)`, `useState([])`, `useState(null)` and the initial form. -/
def mount (id : String) : ViewState :=
  { id := id, post := .null, comments := [], userId := .null,
    content := initialValues, console := [] }

/-- Re-render of the same instance after the route parameter changed: the
`useState` cells and the form keep their values, only `id` is new (the effect
with dependency list `[id]` then runs again, see `loadData`). -/
def changeId (s : ViewState) (id : String) : ViewState :=
  { s with id := id }

/-- The `.catch` handler of the data loader: `console.error('Error fetching data:', error)`. -/
def logFetchError (s : ViewState) : ViewState :=
  { s with console := s.console ++ ["Error fetching data:"] }

/-- The last `.then` of the data loader, applied to the parsed profile
payload: `if (data.id) { setUserId(data.id) }`; reading `data.id` of `null`
throws and lands in `.catch`. -/
def applyProfile (s : ViewState) (data : JsVal) : ViewState :=
  match data.prop "id" with
  | none => logFetchError s
  | some v => if v.truthy then { s with userId := v } else s

/-- The effect body (lines 16–35) for one activation, given the outcome of
the post read and of the profile read: `fetch(post).then(res => res.json())
.then(data => { setPost(data); return fetch('/profile') }).then(res =>
res.json()).then(applyProfile).catch(log)`.  The status of neither response
is inspected. -/
def loadData (s : ViewState) (postRead profileRead : Fetched) : ViewState :=
  match postRead with
  | .rejected => logFetchError s
  | .response _ none => logFetchError s
  | .response _ (some data) =>
    let s1 := { s with post := data }
    match profileRead with
    | .rejected => logFetchError s1
    | .response _ none => logFetchError s1
    | .response _ (some profile) => applyProfile s1 profile

/-! ## Comment submission -/

/-- The `.catch` handler of `handleCommentSubmit`:
`console.error('Error adding comment:', error)`. -/
def logCommentError (s : ViewState) : ViewState :=
  { s with console := s.console ++ ["Error adding comment:"] }

/-- The handler `handleCommentSubmit` (lines 85–106) created by a render that
saw the comment list `comments`, run to completion on the current state `s`
with the outcome `posted` of the POST: a rejected fetch, a response that is
not `ok` (the handler throws) and an unreadable body all end in `.catch`;
otherwise `setComments([...comments, data]); resetForm()`. -/
def handleCommentSubmit (comments : List JsVal) (s : ViewState) (posted : Fetched) : ViewState :=
  match posted with
  | .rejected => logCommentError s
  | .response status body =>
    if Fetched.ok status then
      match body with
      | none => logCommentError s
      | some data => { s with comments := comments ++ [data], content := initialValues }
    else logCommentError s

/-- Submission from the current screen: the handler in use is the one created
by the render of `s`, so it closes over `s.comments`. -/
def submitComment (s : ViewState) (posted : Fetched) : ViewState :=
  handleCommentSubmit s.comments s posted

/-! ## Rendering and the ownership gate -/

/-- What one render of the component produces: the early return
`Post not found`, a `TypeError` thrown while the JSX expression is evaluated,
or the detail screen, with the flag telling whether the Edit and Delete
buttons are part of it. -/
inductive Screen where
  | notFound : Screen
  | typeError : Screen
  | detail (ownerControls : Bool) : Screen
  deriving DecidableEq

/-- The gate of line 137, `userId === post.author.id`; `none` when reading
`post.author.id` throws. -/
def isOwner (userId post : JsVal) : Option Bool :=
  match post.prop "author" with
  | none => none
  | some author =>
    match author.prop "id" with
    | none => none
    | some authorId => some (userId.strictEq authorId)

/-- Lines 130–134, `post.categories && post.categories.map(c => … c.name …)`:
a falsy value is left alone, an array is mapped (reading `name` of a `null`
element throws), any other truthy value has no `map` method. -/
def categoriesRender (categories : JsVal) : Bool :=
  if categories.truthy then
    match categories with
    | .arr items => items.all (fun c => (c.prop "name").isSome)
    | _ => false
  else true

/-- One comment entry (lines 168–177) evaluates without throwing: `comment.id`,
`comment.content`, `comment.author.username`, and, when `comment.created_at`
is truthy, `comment.created_at.split(' ')`, which needs a string. -/
def commentRenders (comment : JsVal) : Bool :=
  match comment.prop "author" with
  | none => false
  | some author =>
    match author.prop "username", comment.prop "created_at" with
    | some _, some created =>
      if created.truthy then
        match created with
        | .str _ => true
        | _ => false
      else true
    | _, _ => false

/-- The render function (lines 108–210) as far as JavaScript evaluation goes:
the not-found branch, the property reads that can throw, and the gate.  Date
formatting and the markup are left out. -/
def render (s : ViewState) : Screen :=
  if s.post.truthy then
    match s.post.prop "author", s.post.prop "categories" with
    | some author, some categories =>
      match author.prop "username", isOwner s.userId s.post with
      | some _, some owner =>
        if categoriesRender categories && s.comments.all commentRenders then .detail owner
        else .typeError
      | _, _ => .typeError
    | _, _ => .typeError
  else .notFound

/-- SessionIdentity is present: `userId` left its initial `null`. -/
def sessionPresent (s : ViewState) : Bool :=
  match s.userId with
  | .null => false
  | _ => true

/-- Post is absent: the `!post` test of line 108 holds. -/
def postAbsent (s : ViewState) : Bool := !s.post.truthy

/-! ## The comment draft validator -/

/-- Number of UTF-16 code units of a character. -/
def utf16Units (c : Char) : Nat := if c.toNat < 65536 then 1 else 2

/-- The `length` of a JavaScript string: its number of UTF-16 code units. -/
def jsLength (s : String) : Nat := (s.data.map utf16Units).sum

/-- Message of `.required(...)`. -/
def EMPTY : String := "Comment is required"

/-- Message of `.min(1, ...)`. -/
def TOO_SHORT : String := "Comment must be at least 1 character long"

/-- Message of `.max(500, ...)`. -/
def TOO_LONG : String := "Comment cannot exceed 500 characters"

/-- Yup `string().required()`: the value is present and not the empty string. -/
def yupRequired (v : Option String) : Bool :=
  match v with
  | none => false
  | some s => 0 < jsLength s

/-- Yup `string().min(n)`: passes on an absent value, else `value.length >= n`. -/
def yupMin (n : Nat) (v : Option String) : Bool :=
  match v with
  | none => true
  | some s => n ≤ jsLength s

/-- Yup `string().max(n)`: passes on an absent value, else `value.length <= n`. -/
def yupMax (n : Nat) (v : Option String) : Bool :=
  match v with
  | none => true
  | some s => jsLength s ≤ n

/-- The schema of lines 78–83 for the field `content`: the messages of the
failing tests, in the order the tests were added.  No `.trim()` is part of the
schema. -/
def validationSchema (v : Option String) : List String :=
  (if yupRequired v then [] else [EMPTY]) ++
  (if yupMin 1 v then [] else [TOO_SHORT]) ++
  (if yupMax 500 v then [] else [TOO_LONG])

/-- Formik hands the field to the schema with `''` replaced by `undefined`. -/
def prepareDataForValidation (content : String) : Option String :=
  if content = "" then none else some content

/-- The validator of the comment form: `none` when the draft is accepted,
otherwise the message shown for the field (the first one reported). -/
def validate (content : String) : Option String :=
  (validationSchema (prepareDataForValidation content)).head?

/-- The schema applied to the string itself, without the Formik step. -/
def validateRaw (content : String) : Option String :=
  (validationSchema (some content)).head?

/-- White space and line terminators removed by `String.prototype.trim`. -/
def isJsWhitespace (c : Char) : Bool :=
  let n := c.toNat
  n = 0x9 || n = 0xA || n = 0xB || n = 0xC || n = 0xD || n = 0x20 || n = 0xA0 ||
  n = 0x1680 || (0x2000 ≤ n && n ≤ 0x200A) || n = 0x2028 || n = 0x2029 ||
  n = 0x202F || n = 0x205F || n = 0x3000 || n = 0xFEFF

/-- The string with leading and trailing white space removed. -/
def trim (s : String) : String :=
  ⟨((s.data.dropWhile isJsWhitespace).reverse.dropWhile isJsWhitespace).reverse⟩

/-- Trimmed length, the measure the specification uses. -/
def trimmedLength (s : String) : Nat := jsLength (trim s)

/-! ## Numbers and navigation -/

/-- JavaScript Number values that integer arithmetic on a parsed identifier
can reach: `NaN`, the two infinities, and the integers a double holds exactly
(the sign of zero is not tracked). -/
inductive JsNum where
  | nan : JsNum
  | inf (negative : Bool) : JsNum
  | fin (z : Int) : JsNum
  deriving DecidableEq

/-- Number of binary digits of `n` (`0` for `0`); the first argument bounds
the number of halvings. -/
def bitLengthAux : Nat → Nat → Nat
  | 0, _ => 0
  | fuel + 1, n => if n = 0 then 0 else bitLengthAux fuel (n / 2) + 1

/-- Number of binary digits of `n`. -/
def bitLength (n : Nat) : Nat := bitLengthAux n n

/-- The natural number nearest to `n` among those with a 53-bit significand,
ties going to the even significand (IEEE 754 round-to-nearest-even). -/
def roundNat (n : Nat) : Nat :=
  let e := bitLength n - 53
  let q := n / 2 ^ e
  let r := n % 2 ^ e
  if 2 * r < 2 ^ e then q * 2 ^ e
  else if 2 * r = 2 ^ e ∧ q % 2 = 0 then q * 2 ^ e
  else (q + 1) * 2 ^ e

/-- The Number value for the mathematical integer `z`: rounded to a double,
overflowing to an infinity when the magnitude reaches `2 ^ 1024` (more than
1024 binary digits). -/
def toNumber (z : Int) : JsNum :=
  let m := roundNat z.natAbs
  if 1024 < bitLength m then .inf (decide (z < 0))
  else .fin (if z < 0 then -(m : Int) else (m : Int))

namespace JsNum

/-- Number addition `a + b`. -/
def add : JsNum → JsNum → JsNum
  | nan, _ => nan
  | _, nan => nan
  | inf s, inf t => if s = t then inf s else nan
  | inf s, fin _ => inf s
  | fin _, inf t => inf t
  | fin a, fin b => toNumber (a + b)

/-- Number subtraction `a - b`. -/
def sub : JsNum → JsNum → JsNum
  | nan, _ => nan
  | _, nan => nan
  | inf s, inf t => if s = t then nan else inf s
  | inf s, fin _ => inf s
  | fin _, inf t => inf (!t)
  | fin a, fin b => toNumber (a - b)

/-- The comparison `a > b`. -/
def gt : JsNum → JsNum → Bool
  | nan, _ => false
  | _, nan => false
  | inf s, inf t => !s && t
  | inf s, fin _ => !s
  | fin _, inf t => t
  | fin a, fin b => decide (b < a)

end JsNum

/-- Value of a digit in the given radix (10 or 16), `none` for any other character. -/
def digitValue (radix : Nat) (c : Char) : Option Nat :=
  let n := c.toNat
  if 48 ≤ n ∧ n ≤ 57 then some (n - 48)
  else if radix = 16 ∧ 97 ≤ n ∧ n ≤ 102 then some (n - 87)
  else if radix = 16 ∧ 65 ≤ n ∧ n ≤ 70 then some (n - 55)
  else none

/-- Value of a digit string read in the given radix. -/
def digitsValue (radix : Nat) (cs : List Char) : Nat :=
  cs.foldl (fun acc c => acc * radix + (digitValue radix c).getD 0) 0

/-- The first steps of `parseInt(string)` called with one argument: leading
white space is skipped, a sign is read, a `0x`/`0X` prefix selects radix 16, and
the longest run of digits is read; the result is the signed mathematical
integer, or `none` when there is no digit. -/
def parseMathInt (s : String) : Option Int :=
  let cs := s.data.dropWhile isJsWhitespace
  let negative := cs.head? = some '-'
  let cs := if cs.head? = some '-' ∨ cs.head? = some '+' then cs.tail else cs
  let hex := cs.take 2 = ['0', 'x'] ∨ cs.take 2 = ['0', 'X']
  let radix := if hex then 16 else 10
  let cs := if hex then cs.drop 2 else cs
  let ds := cs.takeWhile (fun c => (digitValue radix c).isSome)
  if ds = [] then none
  else some (if negative then -(digitsValue radix ds : Int) else (digitsValue radix ds : Int))

/-- The global `parseInt(string)`: `NaN` when no digit was read, otherwise the
Number for the integer read, correctly rounded. -/
def parseInt (s : String) : JsNum :=
  match parseMathInt s with
  | none => .nan
  | some z => toNumber z

/-- Where `navigate(...)` is sent: the list route `/posts`, the post route
`/posts/${n}` built from a Number, or the edit route `/posts/edit/${id}`. -/
inductive Target where
  | posts : Target
  | post (n : JsNum) : Target
  | postEdit (id : String) : Target
  deriving DecidableEq

/-- The handler `handleEdit` (lines 60–62). -/
def handleEdit (id : String) : Target := .postEdit id

/-- The handler `handleNext` (lines 64–66): `navigate(/posts/${parseInt(id) + 1})`. -/
def handleNext (id : String) : Target :=
  .post ((parseInt id).add (.fin 1))

/-- The handler `handleBack` (lines 68–74). -/
def handleBack (id : String) : Target :=
  if (parseInt id).gt (.fin 1) then .post ((parseInt id).sub (.fin 1))
  else .posts


/-- A character is one of `0`–`9`. -/
abbrev isDecimalDigit (c : Char) : Prop := 48 ≤ c.toNat ∧ c.toNat ≤ 57

/-! ## Sample payloads and sessions -/

/-- A post payload whose author identifier is `null`. -/
def nullAuthorPost : JsVal :=
  .obj [("id", .num 5), ("title", .str "Hello"), ("content", .str "Body"),
    ("created_at", .str "2024-05-01"),
    ("author", .obj [("id", .null), ("username", .str "ghost")]),
    ("categories", .arr [])]

/-- A profile payload for a visitor who is not logged in (no `id` field). -/
def anonymousProfile : JsVal := .obj [("message", .str "Unauthorized")]

/-- An anonymous visit of `/posts/5`: the post read returns `nullAuthorPost`
with status 200, the profile read returns 401 with `anonymousProfile`. -/
def anonymousVisit : ViewState :=
  loadData (mount "5") (.response 200 (some nullAuthorPost)) (.response 401 (some anonymousProfile))

/-- The JSON body of an error response. -/
def serverErrorBody : JsVal := .obj [("error", .str "Internal Server Error")]

/-- A visit of `/posts/5` whose post read returns HTTP 500 with a JSON body. -/
def failedVisit : ViewState :=
  loadData (mount "5") (.response 500 (some serverErrorBody)) (.response 401 (some anonymousProfile))

/-- A well-formed post payload with the given identifier, written by author 42. -/
def samplePost (id : Int) : JsVal :=
  .obj [("id", .num id), ("title", .str "Title"), ("content", .str "Text"),
    ("created_at", .str "2024-05-01"),
    ("author", .obj [("id", .num 42), ("username", .str "ann")]),
    ("categories", .arr [.obj [("id", .num 1), ("name", .str "news")]])]

/-- A profile payload of the logged-in visitor 7. -/
def visitorProfile : JsVal := .obj [("id", .num 7), ("username", .str "bob")]

/-- A created comment as returned by `POST /posts/5/comments`. -/
def sampleComment : JsVal :=
  .obj [("id", .num 1), ("content", .str "first"),
    ("author", .obj [("id", .num 7), ("username", .str "bob")]),
    ("created_at", .str "2024-05-02 10:00:00")]

/-- Post 5 loaded and one comment submitted with success. -/
def commentedVisit : ViewState :=
  submitComment
    (loadData (mount "5") (.response 200 (some (samplePost 5))) (.response 200 (some visitorProfile)))
    (.response 201 (some sampleComment))

/-- The visitor then moves to `/posts/6` and the new activation loads post 6. -/
def nextVisit : ViewState :=
  loadData (changeId commentedVisit "6") (.response 200 (some (samplePost 6)))
    (.response 200 (some visitorProfile))

/-- A draft of one letter followed by 500 spaces. -/
def paddedDraft : String := ⟨'a' :: List.replicate 500 ' '⟩

/-- A draft of `n` letters `a`. -/
def lettersDraft (n : Nat) : String := ⟨List.replicate n 'a'⟩

end InkSpace

namespace InkSpace

/-! ## Facts about the validator -/

theorem utf16Units_pos (c : Char) : 0 < utf16Units c := by
  unfold utf16Units
  split <;> decide

theorem jsLength_pos_of_ne_empty (s : String) (h : s ≠ "") : 0 < jsLength s := by
  obtain ⟨cs⟩ := s
  cases cs with
  | nil => exact absurd rfl h
  | cons c cs =>
    have := utf16Units_pos c
    simp only [jsLength, List.map_cons, List.sum_cons]
    omega

theorem validate_of_ne_empty (s : String) (h : s ≠ "") :
    validate s = if jsLength s ≤ 500 then none else some TOO_LONG := by
  have hpos := jsLength_pos_of_ne_empty s h
  have h1 : (1 : Nat) ≤ jsLength s := hpos
  by_cases h500 : jsLength s ≤ 500 <;>
    simp [validate, prepareDataForValidation, validationSchema, yupRequired, yupMin, yupMax,
      h, hpos, h1, h500]

theorem validate_empty : validate "" = some EMPTY := by decide

theorem validateRaw_eq_validate (s : String) : validateRaw s = validate s := by
  by_cases h : s = ""
  · subst h; decide
  · simp [validateRaw, validate, prepareDataForValidation, h]

theorem EMPTY_ne_TOO_LONG : EMPTY ≠ TOO_LONG := by decide

end InkSpace

namespace InkSpace

/-! ## The ownership gate -/

theorem isOwner_eq (userId post author authorId : JsVal) (h1 : post.prop "author" = some author)
    (h2 : author.prop "id" = some authorId) :
    isOwner userId post = some (userId.strictEq authorId) := by
  simp [isOwner, h1, h2]

theorem strictEq_null_left (v : JsVal) : JsVal.strictEq .null v = true ↔ v = .null := by
  cases v <;> simp [JsVal.strictEq]

/-- With `userId` still `null`, the gate is true exactly for the posts whose
`author.id` is `null`. -/
theorem isOwner_of_absent_session (post author authorId : JsVal)
    (h1 : post.prop "author" = some author) (h2 : author.prop "id" = some authorId) :
    isOwner .null post = some true ↔ authorId = .null := by
  rw [isOwner_eq .null post author authorId h1 h2, Option.some.injEq, strictEq_null_left]

/-! ## Facts about numbers -/

theorem bitLengthAux_le_iff (fuel : Nat) : ∀ n k : Nat, n ≤ fuel →
    (bitLengthAux fuel n ≤ k ↔ n < 2 ^ k) := by
  induction fuel with
  | zero =>
    intro n k hn
    have h0 : n = 0 := by omega
    subst h0
    simp [bitLengthAux]
  | succ fuel ih =>
    intro n k hn
    by_cases h0 : n = 0
    · subst h0; simp [bitLengthAux]
    · have hhalf : n / 2 ≤ fuel := by omega
      simp only [bitLengthAux, h0, if_false]
      cases k with
      | zero => simp; omega
      | succ k =>
        rw [Nat.add_le_add_iff_right, ih (n / 2) k hhalf, Nat.pow_succ]
        omega

theorem bitLength_le_iff (n k : Nat) : bitLength n ≤ k ↔ n < 2 ^ k :=
  bitLengthAux_le_iff n n k (Nat.le_refl n)

theorem roundNat_of_lt (n : Nat) (h : n < 2 ^ 53) : roundNat n = n := by
  have hb : bitLength n - 53 = 0 := by
    have := (bitLength_le_iff n 53).2 h
    omega
  simp [roundNat, hb, Nat.mod_one]

theorem roundNat_two_pow_53 : roundNat (2 ^ 53) = 2 ^ 53 := by decide

theorem roundNat_of_le (n : Nat) (h : n ≤ 2 ^ 53) : roundNat n = n := by
  rcases Nat.lt_or_eq_of_le h with h1 | h1
  · exact roundNat_of_lt n h1
  · rw [h1]; exact roundNat_two_pow_53

theorem two_pow_excess_le (n : Nat) (h : 0 < n) : 2 ^ (bitLength n - 53) ≤ n := by
  by_cases hb : bitLength n ≤ 53
  · have : bitLength n - 53 = 0 := by omega
    rw [this]; simpa using h
  · have hlt : ¬ bitLength n ≤ bitLength n - 53 := by omega
    rw [bitLength_le_iff] at hlt
    omega

theorem roundNat_pos (n : Nat) (h : 0 < n) : 0 < roundNat n := by
  have hle := two_pow_excess_le n h
  have hpow : 0 < 2 ^ (bitLength n - 53) := Nat.pow_pos (by decide)
  have hq : 0 < n / 2 ^ (bitLength n - 53) := Nat.div_pos hle hpow
  unfold roundNat
  simp only
  split
  · exact Nat.mul_pos hq hpow
  · split
    · exact Nat.mul_pos hq hpow
    · exact Nat.mul_pos (Nat.succ_pos _) hpow

theorem toNumber_of_natAbs_le (z : Int) (h : z.natAbs ≤ 2 ^ 53) : toNumber z = .fin z := by
  have hr := roundNat_of_le z.natAbs h
  have hb : ¬ 1024 < bitLength z.natAbs := by
    have : bitLength z.natAbs ≤ 54 := (bitLength_le_iff _ 54).2 (by omega)
    omega
  unfold toNumber
  simp only [hr, hb, if_false]
  congr 1
  split <;> omega


theorem toNumber_cases (z : Int) :
    toNumber z = .inf (decide (z < 0)) ∨
    toNumber z = .fin (if z < 0 then -(roundNat z.natAbs : Int) else (roundNat z.natAbs : Int)) := by
  unfold toNumber
  by_cases h : 1024 < bitLength (roundNat z.natAbs)
  · left; simp [h]
  · right; simp [h]

theorem toNumber_ne_nan (z : Int) : toNumber z ≠ .nan := by
  rcases toNumber_cases z with h | h <;> rw [h] <;> simp

theorem add_one_ne_nan (z : Int) : (toNumber z).add (.fin 1) ≠ .nan := by
  rcases toNumber_cases z with h | h
  · rw [h]; simp [JsNum.add]
  · rw [h]
    simp only [JsNum.add]
    exact toNumber_ne_nan _

theorem toNumber_ne_nonpos (z k : Int) (hz : 0 < z) (hk : k ≤ 0) : toNumber z ≠ .fin k := by
  have hpos : 0 < roundNat z.natAbs := roundNat_pos _ (by omega)
  rcases toNumber_cases z with h | h
  · rw [h]; simp
  · rw [h]
    intro heq
    have h2 := JsNum.fin.inj heq
    split at h2 <;> omega

theorem sub_one_ne_nonpos (x : JsNum) (hgt : x.gt (.fin 1) = true) (k : Int) (hk : k ≤ 0) :
    x.sub (.fin 1) ≠ .fin k := by
  cases x with
  | nan => simp [JsNum.gt] at hgt
  | inf s => simp [JsNum.sub]
  | fin a =>
    simp only [JsNum.gt, decide_eq_true_eq] at hgt
    simp only [JsNum.sub]
    exact toNumber_ne_nonpos (a - 1) k (by omega) hk

/-! ## Decimal numerals -/

theorem digitChar_decimal (k : Nat) (h : k < 10) :
    isDecimalDigit (Nat.digitChar k) ∧ digitValue 10 (Nat.digitChar k) = some k := by
  unfold isDecimalDigit
  interval_cases k <;> decide

theorem digitsValue_append_singleton (radix : Nat) (cs : List Char) (c : Char) :
    digitsValue radix (cs ++ [c]) = digitsValue radix cs * radix + (digitValue radix c).getD 0 := by
  simp [digitsValue, List.foldl_append]

theorem toDigitsCore_decimal (fuel : Nat) : ∀ (n : Nat) (ds : List Char), n < fuel →
    ∃ pre : List Char, Nat.toDigitsCore 10 fuel n ds = pre ++ ds ∧ pre ≠ [] ∧
      (∀ c ∈ pre, isDecimalDigit c) ∧ digitsValue 10 pre = n := by
  induction fuel with
  | zero => intro n ds h; omega
  | succ fuel ih =>
    intro n ds h
    have hd := digitChar_decimal (n % 10) (Nat.mod_lt n (by decide))
    by_cases h0 : n / 10 = 0
    · refine ⟨[Nat.digitChar (n % 10)], ?_, by simp, ?_, ?_⟩
      · simp [Nat.toDigitsCore, h0]
      · intro c hc
        simp only [List.mem_singleton] at hc
        rw [hc]; exact hd.1
      · simp only [digitsValue, List.foldl_cons, List.foldl_nil, hd.2, Option.getD_some]
        omega
    · have hlt : n / 10 < fuel := by omega
      obtain ⟨pre, hpre, _, hdig, hval⟩ := ih (n / 10) (Nat.digitChar (n % 10) :: ds) hlt
      refine ⟨pre ++ [Nat.digitChar (n % 10)], ?_, by simp, ?_, ?_⟩
      · simp [Nat.toDigitsCore, h0, hpre]
      · intro c hc
        rcases List.mem_append.1 hc with hc | hc
        · exact hdig c hc
        · simp only [List.mem_singleton] at hc
          rw [hc]; exact hd.1
      · rw [digitsValue_append_singleton, hval, hd.2, Option.getD_some]
        omega

theorem repr_decimal (n : Nat) :
    ∃ pre : List Char, (toString n).data = pre ∧ pre ≠ [] ∧
      (∀ c ∈ pre, isDecimalDigit c) ∧ digitsValue 10 pre = n := by
  obtain ⟨pre, hpre, hne, hdig, hval⟩ := toDigitsCore_decimal (n + 1) n [] (Nat.lt_succ_self n)
  refine ⟨pre, ?_, hne, hdig, hval⟩
  show (Nat.repr n).data = pre
  simp [Nat.repr, Nat.toDigits, hpre, List.asString]


theorem not_whitespace_of_digit (c : Char) (h : isDecimalDigit c) : isJsWhitespace c = false := by
  unfold isDecimalDigit at h
  simp only [isJsWhitespace, Bool.or_eq_false_iff, Bool.and_eq_false_iff, decide_eq_false_iff_not]
  omega

theorem digitValue_isSome_of_digit (c : Char) (h : isDecimalDigit c) :
    (digitValue 10 c).isSome = true := by
  unfold isDecimalDigit at h
  simp [digitValue, h]

theorem takeWhile_digits (cs : List Char) (h : ∀ c ∈ cs, isDecimalDigit c) :
    cs.takeWhile (fun c => (digitValue 10 c).isSome) = cs := by
  rw [List.takeWhile_eq_self_iff]
  intro c hc
  exact digitValue_isSome_of_digit c (h c hc)

theorem parseMathInt_digits (cs : List Char) (hne : cs ≠ [])
    (hd : ∀ c ∈ cs, isDecimalDigit c) :
    parseMathInt ⟨cs⟩ = some (digitsValue 10 cs : Int) := by
  obtain ⟨c, t, rfl⟩ := List.exists_cons_of_ne_nil hne
  have hc : isDecimalDigit c := hd c (List.mem_cons_self c t)
  have hws := not_whitespace_of_digit c hc
  have hminus : c ≠ '-' := by
    rintro rfl; revert hc; decide
  have hplus : c ≠ '+' := by
    rintro rfl; revert hc; decide
  have hhex : ¬ ((c :: t).take 2 = ['0', 'x'] ∨ (c :: t).take 2 = ['0', 'X']) := by
    cases t with
    | nil => simp
    | cons d t =>
      have hdd : isDecimalDigit d := hd d (by simp)
      have hx : d ≠ 'x' := by
        rintro rfl; revert hdd; decide
      have hX : d ≠ 'X' := by
        rintro rfl; revert hdd; decide
      simp [hx, hX]
  have htw := takeWhile_digits (c :: t) hd
  have hsign : ¬ (c = '-' ∨ c = '+') := by simp [hminus, hplus]
  have e1 : (c :: t).dropWhile isJsWhitespace = c :: t := by simp [List.dropWhile_cons, hws]
  unfold parseMathInt
  simp only [e1, List.head?_cons, Option.some.injEq, hminus, hplus, or_self, if_false, hhex, htw]
  simp

theorem parseMathInt_minus_digits (cs : List Char) (hne : cs ≠ [])
    (hd : ∀ c ∈ cs, isDecimalDigit c) :
    parseMathInt ⟨'-' :: cs⟩ = some (-(digitsValue 10 cs : Int)) := by
  obtain ⟨c, t, rfl⟩ := List.exists_cons_of_ne_nil hne
  have hhex : ¬ ((c :: t).take 2 = ['0', 'x'] ∨ (c :: t).take 2 = ['0', 'X']) := by
    cases t with
    | nil => simp
    | cons d t =>
      have hdd : isDecimalDigit d := hd d (by simp)
      have hx : d ≠ 'x' := by
        rintro rfl; revert hdd; decide
      have hX : d ≠ 'X' := by
        rintro rfl; revert hdd; decide
      simp [hx, hX]
  have htw := takeWhile_digits (c :: t) hd
  have e1 : ('-' :: c :: t).dropWhile isJsWhitespace = '-' :: c :: t := by
    rw [List.dropWhile_cons]
    simp only [show isJsWhitespace '-' = false by decide]
    simp
  unfold parseMathInt
  simp only [e1, List.head?_cons, true_or, if_true, List.tail_cons, hhex, if_false, htw]
  simp

theorem parseMathInt_toString (z : Int) : parseMathInt (toString z) = some z := by
  cases z with
  | ofNat m =>
    obtain ⟨pre, hpre, hne, hdig, hval⟩ := repr_decimal m
    have hs : toString (Int.ofNat m) = ⟨pre⟩ := by
      show toString m = ⟨pre⟩
      rw [← hpre]
    rw [hs, parseMathInt_digits pre hne hdig, hval]
    rfl
  | negSucc m =>
    obtain ⟨pre, hpre, hne, hdig, hval⟩ := repr_decimal (m + 1)
    have hs : toString (Int.negSucc m) = ⟨'-' :: pre⟩ := by
      show "-" ++ toString (m + 1) = ⟨'-' :: pre⟩
      rw [← hpre]
      rfl
    rw [hs, parseMathInt_minus_digits pre hne hdig, hval]
    rfl

theorem parseInt_toString (z : Int) : parseInt (toString z) = toNumber z := by
  simp [parseInt, parseMathInt_toString]

end InkSpace

namespace InkSpace

/-! ## The claims -/

/-- C1: an anonymous visitor (SessionIdentity absent, `userId` still `null`)
who opens a post whose `author.id` is `null` gets the detail screen with the
Edit and Delete buttons: the gate `userId === post.author.id` is true there. -/
theorem ownerControls_shown_to_anonymous :
    sessionPresent anonymousVisit = false ∧ render anonymousVisit = .detail true := by
  decide

/-- C2: after a submission answered by an OK response with a parsed payload `c`,
the comment list is the previous list followed by `c` (one entry longer, `c`
last, earlier entries unchanged) and the draft is empty. -/
theorem handleCommentSubmit_success (s : ViewState) (status : Nat) (c : JsVal)
    (hok : Fetched.ok status = true) :
    (submitComment s (.response status (some c))).comments = s.comments ++ [c] ∧
    (submitComment s (.response status (some c))).comments.length = s.comments.length + 1 ∧
    (submitComment s (.response status (some c))).comments.getLast? = some c ∧
    (submitComment s (.response status (some c))).comments.take s.comments.length = s.comments ∧
    (submitComment s (.response status (some c))).content = "" := by
  have h : submitComment s (.response status (some c)) =
      { s with comments := s.comments ++ [c], content := initialValues } := by
    simp [submitComment, handleCommentSubmit, hok]
  rw [h]
  refine ⟨rfl, by simp, by simp, by simp, rfl⟩

/-- Witness of C2 on the state with post 5 loaded and one comment present. -/
theorem handleCommentSubmit_success_witness :
    Fetched.ok 201 = true ∧
    (submitComment commentedVisit (.response 201 (some sampleComment))).comments =
      commentedVisit.comments ++ [sampleComment] ∧
    (submitComment commentedVisit (.response 201 (some sampleComment))).comments.length =
      commentedVisit.comments.length + 1 ∧
    (submitComment commentedVisit (.response 201 (some sampleComment))).comments.getLast? =
      some sampleComment ∧
    (submitComment commentedVisit (.response 201 (some sampleComment))).comments.take
      commentedVisit.comments.length = commentedVisit.comments ∧
    (submitComment commentedVisit (.response 201 (some sampleComment))).content = "" :=
  ⟨by decide, handleCommentSubmit_success commentedVisit 201 sampleComment (by decide)⟩

/-- C3: when the POST is rejected, or answered by a response that is not OK, or
by a body that cannot be read, the comment list and the draft are what they
were and one line is written with `console.error`. -/
theorem handleCommentSubmit_failure (s : ViewState) (posted : Fetched)
    (hfail : posted = .rejected ∨
      ∃ status body, posted = .response status body ∧ (Fetched.ok status = false ∨ body = none)) :
    (submitComment s posted).comments = s.comments ∧
    (submitComment s posted).content = s.content ∧
    (submitComment s posted).console = s.console ++ ["Error adding comment:"] := by
  have h : submitComment s posted = logCommentError s := by
    rcases hfail with rfl | ⟨status, body, rfl, hb | hb⟩
    · rfl
    · simp [submitComment, handleCommentSubmit, hb]
    · subst hb
      by_cases hok : Fetched.ok status = true <;> simp [submitComment, handleCommentSubmit, hok]
  rw [h]
  exact ⟨rfl, rfl, rfl⟩

/-- Witness of C3 on an HTTP 500 answer with a JSON body. -/
theorem handleCommentSubmit_failure_witness :
    (submitComment commentedVisit (.response 500 (some serverErrorBody))).comments =
      commentedVisit.comments ∧
    (submitComment commentedVisit (.response 500 (some serverErrorBody))).content =
      commentedVisit.content ∧
    (submitComment commentedVisit (.response 500 (some serverErrorBody))).console =
      commentedVisit.console ++ ["Error adding comment:"] :=
  handleCommentSubmit_failure commentedVisit (.response 500 (some serverErrorBody))
    (Or.inr ⟨500, some serverErrorBody, rfl, Or.inl (by decide)⟩)

set_option maxRecDepth 100000 in
/-- C4 as stated fails: a draft of one letter followed by 500 spaces has trimmed
length 1 and is rejected as too long. -/
theorem trimmed_range_not_accepted :
    trimmedLength paddedDraft = 1 ∧ validate paddedDraft = some TOO_LONG ∧
    ¬ (∀ s : String, 1 ≤ trimmedLength s → trimmedLength s ≤ 500 → validate s = none) := by
  have h1 : trimmedLength paddedDraft = 1 := by decide
  have h2 : validate paddedDraft = some TOO_LONG := by decide
  refine ⟨h1, h2, fun h => ?_⟩
  have h3 := h paddedDraft (by omega) (by omega)
  rw [h2] at h3
  exact absurd h3 (by simp)

/-- C4 amended: every draft whose length, white space included, is between 1 and
500 is accepted. -/
theorem validate_accepts_length_range (s : String) (h1 : 1 ≤ jsLength s)
    (h2 : jsLength s ≤ 500) : validate s = none := by
  have hne : s ≠ "" := by
    rintro rfl
    revert h1
    decide
  rw [validate_of_ne_empty s hne, if_pos h2]

/-- Witness of C4 amended on the draft `hello`. -/
theorem validate_accepts_length_range_witness :
    1 ≤ jsLength "hello" ∧ jsLength "hello" ≤ 500 ∧ validate "hello" = none :=
  ⟨by decide, by decide, validate_accepts_length_range "hello" (by decide) (by decide)⟩

/-- C5 as stated fails: a draft of one space has trimmed length 0 and is accepted. -/
theorem whitespace_draft_accepted :
    trimmedLength " " = 0 ∧ validate " " = none ∧
    ¬ (∀ s : String, trimmedLength s = 0 → validate s = some EMPTY) := by
  refine ⟨by decide, by decide, fun h => ?_⟩
  have h3 := h " " (by decide)
  revert h3
  decide

/-- C5 amended: the validator fails with `Comment is required` on the empty
string and on no other string. -/
theorem validate_empty_iff (s : String) : validate s = some EMPTY ↔ s = "" := by
  constructor
  · intro h
    by_contra hne
    rw [validate_of_ne_empty s hne] at h
    split at h
    · simp at h
    · exact EMPTY_ne_TOO_LONG (Option.some.inj h).symm
  · rintro rfl
    exact validate_empty

/-- C6: on a non-empty draft the validator fails with `Comment cannot exceed 500
characters` exactly when the length exceeds 500, and accepts exactly when it
does not; so length 500 is accepted and length 501 rejected. -/
theorem validate_too_long_iff (s : String) (h : s ≠ "") :
    (validate s = some TOO_LONG ↔ 500 < jsLength s) ∧
    (validate s = none ↔ jsLength s ≤ 500) ∧
    (jsLength s = 500 → validate s = none) ∧
    (jsLength s = 501 → validate s = some TOO_LONG) := by
  have hv := validate_of_ne_empty s h
  by_cases h500 : jsLength s ≤ 500
  · rw [if_pos h500] at hv
    rw [hv]
    exact ⟨⟨fun h' => by simp at h', fun h' => by omega⟩, ⟨fun _ => h500, fun _ => rfl⟩,
      fun _ => rfl, fun h' => by omega⟩
  · rw [if_neg h500] at hv
    rw [hv]
    exact ⟨⟨fun _ => by omega, fun _ => rfl⟩, ⟨fun h' => by simp at h', fun h' => absurd h' h500⟩,
      fun h' => by omega, fun _ => rfl⟩

set_option maxRecDepth 100000 in
/-- Witness of C6 on the draft of 501 letters. -/
theorem validate_too_long_iff_witness :
    lettersDraft 501 ≠ "" ∧ jsLength (lettersDraft 501) = 501 ∧
    validate (lettersDraft 501) = some TOO_LONG :=
  have hne : lettersDraft 501 ≠ "" := by decide
  have hlen : jsLength (lettersDraft 501) = 501 := by decide
  ⟨hne, hlen, (validate_too_long_iff (lettersDraft 501) hne).2.2.2 hlen⟩

/-- C7 as stated fails: from identifier 9007199254740994 (`2 ^ 53 + 2`) Back
navigates to post 9007199254740992, not to 9007199254740993. -/
theorem handleBack_inexact :
    handleBack "9007199254740994" = .post (.fin 9007199254740992) ∧
    ¬ (∀ n : Int, 1 < n → handleBack (toString n) = .post (.fin (n - 1))) := by
  have h1 : handleBack "9007199254740994" = .post (.fin 9007199254740992) := by decide
  refine ⟨h1, fun h => ?_⟩
  have h2 := h 9007199254740994 (by decide)
  have h3 : toString (9007199254740994 : Int) = "9007199254740994" := by decide
  rw [h3, h1] at h2
  revert h2
  decide

/-- C7 amended: for an integer identifier `n` with `1 < n ≤ 2 ^ 53` Back
navigates to the post route of `n - 1`; for every integer `n ≤ 1` it navigates
to `/posts`; for no route parameter at all does it navigate to the post route
of `0` or of a negative number. -/
theorem handleBack_spec (n : Int) :
    (1 < n → n ≤ 2 ^ 53 → handleBack (toString n) = .post (.fin (n - 1))) ∧
    (n ≤ 1 → handleBack (toString n) = .posts) ∧
    (∀ (id : String) (k : Int), k ≤ 0 → handleBack id ≠ .post (.fin k)) := by
  refine ⟨fun h1 h2 => ?_, fun h1 => ?_, fun id k hk => ?_⟩
  · have e1 : toNumber n = .fin n := toNumber_of_natAbs_le n (by omega)
    have e2 : toNumber (n - 1) = .fin (n - 1) := toNumber_of_natAbs_le (n - 1) (by omega)
    simp [handleBack, parseInt_toString, e1, JsNum.gt, JsNum.sub, e2, h1]
  · have hgt : (toNumber n).gt (.fin 1) = false := by
      by_cases hneg : n < 0
      · unfold toNumber
        simp only [hneg, if_true, decide_True]
        split
        · rfl
        · simp only [JsNum.gt, decide_eq_false_iff_not]
          omega
      · have e1 : toNumber n = .fin n := toNumber_of_natAbs_le n (by omega)
        rw [e1]
        simp only [JsNum.gt, decide_eq_false_iff_not]
        omega
    simp [handleBack, parseInt_toString, hgt]
  · unfold handleBack
    split
    · rename_i hgt
      intro heq
      exact sub_one_ne_nonpos _ hgt k hk (Target.post.inj heq)
    · simp

/-- Witness of C7 amended on the identifier 5. -/
theorem handleBack_spec_witness :
    handleBack (toString (5 : Int)) = .post (.fin (5 - 1)) :=
  (handleBack_spec 5).1 (by decide) (by decide)

/-- C8 as stated fails: from identifier 9007199254740992 (`2 ^ 53`) Next
navigates to post 9007199254740992 again, not to 9007199254740993. -/
theorem handleNext_inexact :
    handleNext "9007199254740992" = .post (.fin 9007199254740992) ∧
    ¬ (∀ n : Int, handleNext (toString n) = .post (.fin (n + 1))) := by
  have h1 : handleNext "9007199254740992" = .post (.fin 9007199254740992) := by decide
  refine ⟨h1, fun h => ?_⟩
  have h2 := h 9007199254740992
  have h3 : toString (9007199254740992 : Int) = "9007199254740992" := by decide
  rw [h3, h1] at h2
  revert h2
  decide

/-- C8 amended: for an integer identifier `n` with `-2 ^ 53 ≤ n < 2 ^ 53` Next
navigates to the post route of `n + 1`; the handler has no bound of its own: it
sends every route parameter `id` to the post route of the Number
`parseInt(id) + 1`, which for every integer `n`, however large, is the Number of
`n` plus one and never `NaN`. -/
theorem handleNext_spec (n : Int) :
    (-(2 ^ 53) ≤ n → n < 2 ^ 53 → handleNext (toString n) = .post (.fin (n + 1))) ∧
    handleNext (toString n) = .post ((toNumber n).add (.fin 1)) ∧
    handleNext (toString n) ≠ .post .nan ∧
    (∀ id : String, handleNext id = .post ((parseInt id).add (.fin 1))) := by
  have hall : handleNext (toString n) = .post ((toNumber n).add (.fin 1)) := by
    rw [handleNext, parseInt_toString]
  refine ⟨fun h1 h2 => ?_, hall, ?_, fun id => rfl⟩
  · have e1 : toNumber n = .fin n := toNumber_of_natAbs_le n (by omega)
    have e2 : toNumber (n + 1) = .fin (n + 1) := toNumber_of_natAbs_le (n + 1) (by omega)
    rw [hall, e1]
    simp only [JsNum.add, e2]
  · rw [hall]
    intro heq
    exact add_one_ne_nan n (Target.post.inj heq)

/-- Witness of C8 amended on the identifier 5. -/
theorem handleNext_spec_witness :
    handleNext (toString (5 : Int)) = .post (.fin (5 + 1)) :=
  (handleNext_spec 5).1 (by decide) (by decide)

/-- C9: an activation that starts with Post absent and whose post read returns
HTTP 500 with a JSON body ends with Post set to that body; the render then
throws instead of showing `Post not found`. -/
theorem failed_post_read_sets_post :
    postAbsent (mount "5") = true ∧ Fetched.ok 500 = false ∧
    postAbsent failedVisit = false ∧ render failedVisit = .typeError := by
  decide

/-- C10: after a comment was appended under identifier 5 and the identifier
changed to 6, Post is still the old post and the comment list still holds that
comment when the new activation starts, and the comment is still there once
post 6 is loaded. -/
theorem comments_survive_identifier_change :
    postAbsent (changeId commentedVisit "6") = false ∧
    (changeId commentedVisit "6").comments = [sampleComment] ∧
    nextVisit.id = "6" ∧ nextVisit.comments = [sampleComment] := by
  refine ⟨by decide, rfl, rfl, rfl⟩

end InkSpace
